import Mathlib

/-!
Shallow embedding of the review-analysis core of the Local-Reputation-Agent
repository (directory sentiment-analysis/): the urgency detector
(urgency.py), the aspect detector (aspects.py), the VADER guardrails and
rating ceiling (sentiment.py), the LLM fusion step (run_analysis.py) and the
contract-enforcement pass (sentiment_rules.py), together with proofs of the
cross-field invariants stated in the specification.

Python floats are modelled as rationals; the external VADER lexicon scorer
and the Unicode NFC normalisation step (both third-party library calls, not
repository code) are passed in as function parameters.  String handling
mirrors CPython semantics on ASCII data: lowercasing, whitespace splitting
and the word-boundary class are the ASCII fragments of their Unicode
counterparts.
-/

namespace LRA

/-- Whitespace set of Python str.split / \s (ASCII fragment): space, tab,
newline, carriage return, vertical tab, form feed. -/
def pyIsSpace (c : Char) : Bool :=
  c = ' ' || c = '\t' || c = '\n' || c = '\r' || c = Char.ofNat 11 || c = Char.ofNat 12

/-- Python str.strip(): drop leading and trailing whitespace. -/
def pyStrip (s : String) : String :=
  (((s.toList.dropWhile pyIsSpace).reverse.dropWhile pyIsSpace).reverse).asString

/-- Word accumulator for pySplitWs: collect maximal non-whitespace runs. -/
def splitWsAux (acc : List Char) : List Char → List String
  | [] => if acc.isEmpty then [] else [acc.reverse.asString]
  | c :: cs =>
    if pyIsSpace c then
      if acc.isEmpty then splitWsAux [] cs
      else acc.reverse.asString :: splitWsAux [] cs
    else splitWsAux (c :: acc) cs

/-- Python str.split() with no argument: split on whitespace runs,
discarding empty fields. -/
def pySplitWs (s : String) : List String :=
  splitWsAux [] s.toList

/-- Python str.lower() over the character list (ASCII fragment). -/
def strLower (s : String) : String :=
  (s.toList.map Char.toLower).asString

/-- Substring scan: does needle occur (contiguously) anywhere in hay? -/
def subAt (needle : List Char) : List Char → Bool
  | [] => needle.isEmpty
  | c :: cs => needle.isPrefixOf (c :: cs) || subAt needle cs

/-- Python substring test: needle in hay. -/
def containsSub (hay needle : String) : Bool :=
  subAt needle.toList hay.toList

/-- Word character of the regex \b boundary (ASCII fragment of \w). -/
def pyIsWordChar (c : Char) : Bool :=
  c.isAlphanum || c = '_'

/-- Case-insensitive literal match of pat against a prefix of cs. -/
def matchesCI : List Char → List Char → Bool
  | [], _ => true
  | _ :: _, [] => false
  | p :: ps, c :: cs => (p.toLower = c.toLower) && matchesCI ps cs

/-- ASCII apostrophe, built by code point so the contraction table below can
spell Python string literals containing it. -/
def apos : String :=
  String.singleton (Char.ofNat 39)

/-- Unicode right single quotation mark (the smart-quote variant). -/
def smartApos : String :=
  String.singleton (Char.ofNat 0x2019)

/-! ## sentiment.py — guardrails and rating ceiling -/

/-- Negation words from sentiment.py (frozenset _NEGATION_WORDS). -/
def SENT_NEGATION_WORDS : List String :=
  ["not", "no", "never", "neither", "nor", "nobody", "nothing",
   "nowhere", "hardly", "barely", "scarcely", "lack", "without",
   "cannot", "none"]

/-- Complaint-context keywords from sentiment.py (frozenset
_NEGATIVE_KEYWORDS). -/
def SENT_NEGATIVE_KEYWORDS : List String :=
  ["average", "okay", "ok", "decent", "delay", "waiting", "poor", "bad",
   "worst", "terrible", "horrible", "awful", "pathetic",
   "disgusting", "rude", "dirty", "filthy", "overpriced", "expensive",
   "slow", "declined", "decreased", "issue", "issues", "problem",
   "complaint", "concern", "unhygienic", "stained", "poisoning",
   "sick", "sickness", "shame", "avoid", "careless",
   "disrespectful", "mannerless", "shouting", "shout"]

/-- Long-complaint length threshold from sentiment.py. -/
def LONG_REVIEW_THRESHOLD : Nat := 250

/-- Embeds sentiment.py _apply_vader_guardrails: the four score-correcting
guardrails applied in order to the combined VADER+Hinglish score. -/
def apply_vader_guardrails (score : ℚ) (text : String) (rating : ℤ) : ℚ :=
  let words := pySplitWs (strLower text)
  let has_negation := SENT_NEGATION_WORDS.any (fun w => words.contains w)
  let has_negative_kw := SENT_NEGATIVE_KEYWORDS.any (fun w => words.contains w)
  let is_long := text.length > LONG_REVIEW_THRESHOLD
  let s1 := if score > 0 ∧ has_negation ∧ has_negative_kw then -|score| else score
  let s2 := if s1 > 0 ∧ is_long ∧ has_negative_kw then min s1 (-1/10) else s1
  let s3 := if s2 > 1/2 ∧ rating ≤ 2 then (-1/5 : ℚ) else s2
  let s4 := if s3 = 0 ∧ has_negative_kw then (-1/10 : ℚ) else s3
  s4

/-- Embeds config.py RATING_POSITIVE_MIN. -/
def RATING_POSITIVE_MIN : ℤ := 4

/-- Embeds config.py RATING_NEGATIVE_MAX. -/
def RATING_NEGATIVE_MAX : ℤ := 2

/-- Embeds sentiment.py _sentiment_from_rating. -/
def sentiment_from_rating (rating : ℤ) : String × String :=
  if rating ≥ RATING_POSITIVE_MIN then ("Positive", "LOW")
  else if rating ≤ RATING_NEGATIVE_MAX then ("Negative", "LOW")
  else ("Neutral", "LOW")

/-- Embeds sentiment.py _enforce_rating_ceiling: the deterministic rating
ceiling.  Returns the corrected sentiment and whether it was clamped. -/
def enforce_rating_ceiling (sentiment : String) (rating : ℤ) : String × Bool :=
  if rating ≤ 2 then
    if sentiment ≠ "Negative" then ("Negative", true) else (sentiment, false)
  else if rating = 3 then
    if sentiment = "Positive" then ("Neutral", true) else (sentiment, false)
  else (sentiment, false)

/-! ## config.py — thresholds and urgency patterns -/

/-- Embeds config.py POSITIVE_THRESHOLD. -/
def POSITIVE_THRESHOLD : ℚ := 5/100

/-- Embeds config.py NEGATIVE_THRESHOLD. -/
def NEGATIVE_THRESHOLD : ℚ := -5/100

/-- Embeds config.py RATING_OVERRIDE_ZONE. -/
def RATING_OVERRIDE_ZONE : ℚ := 15/100

/-- Embeds config.py HINGLISH_WEIGHT. -/
def HINGLISH_WEIGHT : ℚ := 3/10

/-- Embeds config.py URGENCY_THRESHOLD. -/
def URGENCY_THRESHOLD : ℤ := 6

/-- One entry of the config.py URGENCY_PATTERNS table. -/
structure UrgencyCat where
  name : String
  keywords : List String
  severity : ℤ
  deriving Repr, DecidableEq

/-- Keywords of the food_poisoning urgency category (config.py). -/
def FOOD_POISONING_KW : List String :=
  ["food poisoning", "poisoning", "hospitalized", "hospitalised",
   "hospital", "fell sick", "severe stomach", "gut issues",
   "vomiting", "diarrhea", "diarrhoea", "food borne",
   "foodborne", "toxic"]

/-- Keywords of the hygiene_severe urgency category (config.py). -/
def HYGIENE_SEVERE_KW : List String :=
  ["dirty kitchen", "filthy", "flies in", "cockroach",
   "unwashed", "stained plates", "insect", "unhygienic",
   "not clean"]

/-- Keywords of the authority_escalation urgency category (config.py). -/
def AUTHORITY_ESCALATION_KW : List String :=
  ["fssai", "health department", "health inquiry",
   "health inspector", "legal action", "legal notice",
   "complaint to", "report to", "consumer court",
   "food safety", "inspection", "authority"]

/-- Keywords of the safety_concern urgency category (config.py). -/
def SAFETY_CONCERN_KW : List String :=
  ["unsafe", "no railing", "broken stairs", "accident",
   "injury", "hazard", "fire safety", "emergency exit"]

/-- Keywords of the rude_staff urgency category (config.py). -/
def RUDE_STAFF_KW : List String :=
  ["rude", "shouting", "shout", "disrespectful", "mannerless",
   "misbehave", "misbehaved", "arguing", "abusive", "arrogant",
   "insult", "insulted", "humiliate", "humiliated"]

/-- Embeds config.py URGENCY_PATTERNS in Python dict insertion order. -/
def URGENCY_PATTERNS : List UrgencyCat :=
  [⟨"food_poisoning", FOOD_POISONING_KW, 10⟩,
   ⟨"hygiene_severe", HYGIENE_SEVERE_KW, 9⟩,
   ⟨"authority_escalation", AUTHORITY_ESCALATION_KW, 8⟩,
   ⟨"safety_concern", SAFETY_CONCERN_KW, 7⟩,
   ⟨"rude_staff", RUDE_STAFF_KW, 6⟩]

/-! ## urgency.py — urgency detection -/

/-- Embeds urgency.py _HEALTH_SAFETY_CATEGORIES: categories whose severity a
high rating may never reduce. -/
def HEALTH_SAFETY_CATEGORIES : List String :=
  ["food_poisoning", "hygiene_severe", "authority_escalation", "safety_concern"]

/-- Result shape of urgency.py detect_urgency. -/
structure UrgencyResult where
  urgent : Bool
  urgency_reason : String
  severity_score : ℤ
  matched_patterns : List String
  deriving Repr, DecidableEq

/-- State carried through the category loop of detect_urgency:
max_severity, best_category, best_is_health_safety, all_matches. -/
structure UrgencyScan where
  max_severity : ℤ
  best_category : String
  best_is_health_safety : Bool
  all_matches : List String
  deriving Repr, DecidableEq

/-- One iteration of the category loop in urgency.py detect_urgency. -/
def urgencyStep (text_lower : String) (st : UrgencyScan) (cat : UrgencyCat) : UrgencyScan :=
  let hits := cat.keywords.filter (fun kw => containsSub text_lower kw)
  if hits.isEmpty then st
  else
    let st := { st with all_matches := st.all_matches ++ hits }
    if cat.severity > st.max_severity then
      { st with max_severity := cat.severity
                best_category := cat.name
                best_is_health_safety := HEALTH_SAFETY_CATEGORIES.contains cat.name }
    else st

/-- Embeds urgency.py detect_urgency: keyword-category scan, rating modifier
for non-health/safety categories, threshold comparison.  matched_patterns
models the list(set(all_matches))[:5] step with first-occurrence order
standing in for the unspecified Python set iteration order. -/
def detect_urgency (review_text : String) (rating : ℤ) : UrgencyResult :=
  if review_text = "" ∨ pyStrip review_text = "" then
    ⟨false, "none", 0, []⟩
  else
    let text_lower := strLower review_text
    let st := URGENCY_PATTERNS.foldl (urgencyStep text_lower) ⟨0, "none", false, []⟩
    let max_severity :=
      if ¬ st.all_matches.isEmpty ∧ ¬ st.best_is_health_safety then
        if rating = 1 then min 10 (st.max_severity + 1)
        else if rating ≥ 4 then max 0 (st.max_severity - 3)
        else st.max_severity
      else st.max_severity
    let urgent := max_severity ≥ URGENCY_THRESHOLD
    ⟨urgent, if urgent then st.best_category else "none", max_severity,
     (st.all_matches.eraseDups).take 5⟩

/-! ## preprocessing.py — clean_text -/

/-- Embeds preprocessing.py _CONTRACTIONS in Python dict insertion order.
Apostrophes are spelled via code points. -/
def CONTRACTIONS : List (String × String) :=
  [("don" ++ apos ++ "t", "do not"),
   ("doesn" ++ apos ++ "t", "does not"),
   ("didn" ++ apos ++ "t", "did not"),
   ("won" ++ apos ++ "t", "will not"),
   ("wouldn" ++ apos ++ "t", "would not"),
   ("couldn" ++ apos ++ "t", "could not"),
   ("shouldn" ++ apos ++ "t", "should not"),
   ("isn" ++ apos ++ "t", "is not"),
   ("aren" ++ apos ++ "t", "are not"),
   ("wasn" ++ apos ++ "t", "was not"),
   ("weren" ++ apos ++ "t", "were not"),
   ("hasn" ++ apos ++ "t", "has not"),
   ("haven" ++ apos ++ "t", "have not"),
   ("hadn" ++ apos ++ "t", "had not"),
   ("can" ++ apos ++ "t", "cannot"),
   ("it" ++ apos ++ "s", "it is"),
   ("that" ++ apos ++ "s", "that is"),
   ("there" ++ apos ++ "s", "there is"),
   ("they" ++ apos ++ "re", "they are"),
   ("we" ++ apos ++ "re", "we are"),
   ("you" ++ apos ++ "re", "you are"),
   ("i" ++ apos ++ "m", "i am"),
   ("i" ++ apos ++ "ve", "i have"),
   ("i" ++ apos ++ "ll", "i will"),
   ("let" ++ apos ++ "s", "let us"),
   ("don" ++ smartApos ++ "t", "do not"),
   ("doesn" ++ smartApos ++ "t", "does not"),
   ("didn" ++ smartApos ++ "t", "did not"),
   ("won" ++ smartApos ++ "t", "will not"),
   ("can" ++ smartApos ++ "t", "cannot"),
   ("it" ++ smartApos ++ "s", "it is"),
   ("that" ++ smartApos ++ "s", "that is")]

/-- Scanner for re.sub of a case-insensitive literal pattern: replace every
left-to-right non-overlapping occurrence of pat by rep.  The fuel argument
bounds the number of scan steps; every step consumes at least one character,
so any fuel of at least the list length gives the full scan. -/
def subCIAux (pat rep : List Char) : Nat → List Char → List Char
  | _, [] => []
  | 0, cs => cs
  | fuel + 1, c :: cs =>
    if pat.isEmpty then c :: subCIAux pat rep fuel cs
    else if matchesCI pat (c :: cs) then
      rep ++ subCIAux pat rep fuel (cs.drop (pat.length - 1))
    else c :: subCIAux pat rep fuel cs

/-- Case-insensitive literal re.sub on strings. -/
def subCI (pat rep s : String) : String :=
  (subCIAux pat.toList rep.toList s.toList.length s.toList).asString

/-- Length of the URL match starting exactly at cs, per the preprocessing.py
pattern https?://\S+|www\.\S+ (case-insensitive), or none.  The character
after the optional s is a colon exactly when the s was absent, so the two
branches of s? are mutually exclusive and no backtracking is observable. -/
def urlMatchLen (cs : List Char) : Option Nat :=
  if matchesCI "https://".toList cs then
    let body := (cs.drop 8).takeWhile (fun c => ¬ pyIsSpace c)
    if body.isEmpty then none else some (8 + body.length)
  else if matchesCI "http://".toList cs then
    let body := (cs.drop 7).takeWhile (fun c => ¬ pyIsSpace c)
    if body.isEmpty then none else some (7 + body.length)
  else if matchesCI "www.".toList cs then
    let body := (cs.drop 4).takeWhile (fun c => ¬ pyIsSpace c)
    if body.isEmpty then none else some (4 + body.length)
  else none

/-- Scanner deleting every URL match (re.sub with empty replacement); a
match always covers the current character, so dropping n-1 of the tail
consumes exactly the matched region.  Fuel as in subCIAux. -/
def stripUrlsAux : Nat → List Char → List Char
  | _, [] => []
  | 0, cs => cs
  | fuel + 1, c :: cs =>
    match urlMatchLen (c :: cs) with
    | some n => stripUrlsAux fuel (cs.drop (n - 1))
    | none => c :: stripUrlsAux fuel cs

/-- URL removal step of clean_text. -/
def stripUrls (s : String) : String :=
  (stripUrlsAux s.toList.length s.toList).asString

/-- Scanner for re.sub of \s+ by a single space: a run of whitespace
becomes one space, emitted at the end of the run. -/
def collapseWsAux : List Char → List Char
  | [] => []
  | [c] => if pyIsSpace c then [' '] else [c]
  | c :: c2 :: cs =>
    if pyIsSpace c then
      if pyIsSpace c2 then collapseWsAux (c2 :: cs)
      else ' ' :: collapseWsAux (c2 :: cs)
    else c :: collapseWsAux (c2 :: cs)

/-- Whitespace-collapse-and-strip step of clean_text. -/
def collapseWs (s : String) : String :=
  pyStrip (collapseWsAux s.toList).asString

/-- Embeds preprocessing.py clean_text.  The Unicode NFC normalisation
(unicodedata.normalize, a stdlib call outside this repository) is a
parameter; it is the identity on ASCII text. -/
def clean_text (nfc : String → String) (text : String) : String :=
  if text = "" then ""
  else
    let t := nfc text
    let t := stripUrls t
    let t := CONTRACTIONS.foldl (fun acc pr => subCI pr.1 pr.2 acc) t
    collapseWs t

/-! ## hinglish_lexicon.py — normalize_hinglish -/

/-- Embeds hinglish_lexicon.py _HINGLISH_TO_ENGLISH in dict insertion
order. -/
def HINGLISH_TO_ENGLISH : List (String × String) :=
  [("khana", "food"), ("khaana", "food"), ("khane", "food"),
   ("seva", "service"), ("saaf", "clean"), ("safai", "cleanliness"),
   ("ganda", "dirty"), ("gandagi", "filth"), ("sasta", "cheap"),
   ("mehnga", "expensive"), ("mehenga", "expensive"), ("daam", "price"),
   ("paisa", "money"), ("mahaul", "ambience"), ("jagah", "place"),
   ("bahut", "very"), ("bohot", "very"), ("ekdum", "totally"),
   ("bilkul", "completely"), ("zyada", "too much"), ("kam", "less"),
   ("achha", "good"), ("accha", "good"), ("acha", "good"),
   ("bura", "bad"), ("bakwas", "rubbish"), ("bekar", "useless"),
   ("bekaar", "useless"), ("badhiya", "excellent"),
   ("zabardast", "awesome"), ("mast", "great"), ("lajawab", "outstanding"),
   ("wahiyat", "terrible"), ("ghatiya", "disgusting")]

/-- Stable insertion placing w after every existing element of length at
least w.length. -/
def insertByLen (w : String) : List String → List String
  | [] => [w]
  | x :: xs => if w.length ≤ x.length then x :: insertByLen w xs else w :: x :: xs

/-- Stable longest-first sort, as Python sorted(key=len, reverse=True). -/
def sortByLenDesc (ws : List String) : List String :=
  ws.foldl (fun acc w => insertByLen w acc) []

/-- Hinglish word alternatives in compiled-pattern order (longest first). -/
def hinglishSortedWords : List String :=
  sortByLenDesc (HINGLISH_TO_ENGLISH.map Prod.fst)

/-- Trailing \b test: position after a word character. -/
def endBoundary : List Char → Bool
  | [] => true
  | c :: _ => ¬ pyIsWordChar c

/-- Leading \b test against the previous character of the scan. -/
def startBoundary : Option Char → Bool
  | some p => ¬ pyIsWordChar p
  | none => true

/-- First Hinglish alternative matching at this position with word
boundaries on both sides; yields its English replacement and length. -/
def hinglishTryAt (prev : Option Char) (cs : List Char) : Option (String × Nat) :=
  if startBoundary prev then
    hinglishSortedWords.findSome? (fun w =>
      if matchesCI w.toList cs ∧ endBoundary (cs.drop w.length) then
        some (((HINGLISH_TO_ENGLISH.lookup w).getD w), w.length)
      else none)
  else none

/-- Scanner for the word-boundary Hinglish substitution.  Fuel as in
subCIAux. -/
def hinglishAux : Nat → Option Char → List Char → List Char
  | _, _, [] => []
  | 0, _, cs => cs
  | fuel + 1, prev, c :: cs =>
    match hinglishTryAt prev (c :: cs) with
    | some (rep, n) =>
        rep.toList ++ hinglishAux fuel (some (((c :: cs).take n).getLastD c)) (cs.drop (n - 1))
    | none => c :: hinglishAux fuel (some c) cs

/-- Embeds hinglish_lexicon.py normalize_hinglish. -/
def normalize_hinglish (text : String) : String :=
  (hinglishAux text.toList.length none text.toList).asString

/-! ## config.py — aspect keyword table -/

/-- Keywords of the food aspect (config.py ASPECT_KEYWORDS). -/
def FOOD_ASPECT_KW : List String :=
  ["food", "taste", "tasty", "dish", "dishes", "meal", "meals",
   "breakfast", "lunch", "dinner", "snack", "menu", "delicious",
   "flavour", "flavor", "spicy", "bland", "oily", "crispy", "fresh",
   "stale", "undercooked", "overcooked", "portion", "quantity",
   "dosa", "idli", "idly", "vada", "sambar", "chutney", "pongal",
   "upma", "rice", "bisibele", "bath", "roti", "rotti", "bajji",
   "coffee", "tea", "filter coffee", "ghee", "butter", "puri",
   "sagu", "poori", "kesari", "khara",
   "khana", "khaana", "khane", "swad", "swaad"]

/-- Keywords of the service aspect (config.py ASPECT_KEYWORDS). -/
def SERVICE_ASPECT_KW : List String :=
  ["service", "staff", "waiter", "server", "manager", "wait",
   "waiting", "slow", "fast", "quick", "rude", "polite", "friendly",
   "helpful", "attentive", "cashier", "billing", "order", "delivery",
   "self-service", "counter",
   "seva", "kaam", "behave", "behavior", "behaviour"]

/-- Keywords of the hygiene aspect (config.py ASPECT_KEYWORDS). -/
def HYGIENE_ASPECT_KW : List String :=
  ["hygiene", "hygienic", "clean", "cleanliness", "dirty", "filthy",
   "wash", "unwashed", "sanitize", "sanitise", "flies", "cockroach",
   "insect", "stain", "stained", "plates", "utensils", "stomach",
   "food poisoning", "poisoning", "sick", "vomit", "diarrhea",
   "diarrhoea", "infection",
   "saaf", "safai", "ganda", "gandagi"]

/-- Keywords of the price aspect (config.py ASPECT_KEYWORDS). -/
def PRICE_ASPECT_KW : List String :=
  ["price", "pricing", "expensive", "cheap", "cost", "costly",
   "value", "money", "worth", "overpriced", "affordable", "budget",
   "rupee", "rupees", "rs", "inr",
   "mehnga", "mehenga", "sasta", "daam", "paisa"]

/-- Keywords of the ambience aspect (config.py ASPECT_KEYWORDS). -/
def AMBIENCE_ASPECT_KW : List String :=
  ["ambience", "ambiance", "atmosphere", "decor", "decoration",
   "seating", "seat", "space", "spacious", "crowded", "crowd",
   "packed", "location", "parking", "interior", "exterior", "vibe",
   "music", "noise", "noisy", "lake", "view",
   "mahaul", "jagah"]

/-- Keywords of the safety aspect (config.py ASPECT_KEYWORDS). -/
def SAFETY_ASPECT_KW : List String :=
  ["safety", "safe", "unsafe", "railing", "stairs", "staircase",
   "accident", "injury", "hazard", "fire", "emergency", "security",
   "guard"]

/-- Embeds config.py ASPECT_KEYWORDS in Python dict insertion order. -/
def ASPECT_KEYWORDS : List (String × List String) :=
  [("food", FOOD_ASPECT_KW),
   ("service", SERVICE_ASPECT_KW),
   ("hygiene", HYGIENE_ASPECT_KW),
   ("price", PRICE_ASPECT_KW),
   ("ambience", AMBIENCE_ASPECT_KW),
   ("safety", SAFETY_ASPECT_KW)]

/-! ## aspects.py — aspect detection -/

/-- Single-word negators from aspects.py (frozenset _NEGATION_SINGLES). -/
def NEGATION_SINGLES : List String :=
  ["not", "no", "never", "neither", "nor", "nobody", "nothing",
   "nowhere", "hardly", "barely", "scarcely", "lack", "without",
   "absent", "nonexistent", "none", "cannot"]

/-- Complaint-indicator words from aspects.py (frozenset
_NEGATIVE_INDICATORS). -/
def NEGATIVE_INDICATORS : List String :=
  ["average", "okay", "ok", "decent", "delay", "delayed", "waiting",
   "poor", "bad", "worst", "terrible", "horrible", "awful", "pathetic",
   "disgusting", "concern", "issue", "issues", "problem", "problems",
   "complaint", "dirty", "filthy", "stained", "flies", "cockroach",
   "rude", "shouting", "shout", "disrespectful", "mannerless",
   "slow", "careless", "negligent", "unsafe", "hazard", "danger",
   "improvement", "improve", "needs", "lacking", "nonexistent",
   "negative", "unhygienic", "unclean", "declined", "decreased",
   "overpriced", "expensive"]

/-- Aspects forbidden to score positive on complaint sentences
(aspects.py _COMPLAINT_SENSITIVE_ASPECTS). -/
def COMPLAINT_SENSITIVE_ASPECTS : List String :=
  ["hygiene", "safety", "service"]

/-- Sentence-ending punctuation of the aspects.py sentence splitter. -/
def isSentEnd (c : Char) : Bool :=
  c = '.' || c = '!' || c = '?'

/-- Zero-width lookahead of the sentence splitter: one or more digits, a
dot, then a whitespace character (the numbered-list marker). -/
def digitsDotWs (cs : List Char) : Bool :=
  match cs with
  | c :: rest =>
    if c.isDigit then
      match rest.dropWhile Char.isDigit with
      | d :: c2 :: _ => d = '.' && pyIsSpace c2
      | _ => false
    else false
  | [] => false

/-- Scanner for the aspects.py sentence-splitting regex, which breaks at
whitespace following sentence-ending punctuation, at newline runs, and
(zero-width) before a numbered-list marker; prev is the character just
before the scan position in the original string.  Fuel as in subCIAux. -/
def splitSentAux : Nat → Option Char → List Char → List Char → List (List Char)
  | _, _, acc, [] => [acc.reverse]
  | 0, _, acc, cs => [acc.reverse ++ cs]
  | fuel + 1, prev, acc, c :: cs =>
    if (match prev with | some p => isSentEnd p | none => false) && pyIsSpace c then
      let ws := cs.takeWhile pyIsSpace
      let rest := cs.dropWhile pyIsSpace
      acc.reverse :: splitSentAux fuel (some (ws.getLastD c)) [] rest
    else if c = '\n' then
      acc.reverse :: splitSentAux fuel (some '\n') [] (cs.dropWhile (fun x => x = '\n'))
    else if digitsDotWs (c :: cs) then
      acc.reverse :: splitSentAux fuel (some c) [c] cs
    else splitSentAux fuel (some c) (c :: acc) cs

/-- Embeds aspects.py _split_sentences: regex split, strip each part, drop
empties, and fall back to the whole text when nothing remains. -/
def split_sentences (text : String) : List String :=
  let parts := (splitSentAux text.toList.length none [] text.toList).map
    (fun l => pyStrip l.asString)
  let sentences := parts.filter (fun s => s ≠ "")
  if sentences.isEmpty then [text] else sentences

/-- Embeds aspects.py _sentence_has_negation: word-level scan for
single-word negators. -/
def sentence_has_negation (sentence : String) : Bool :=
  NEGATION_SINGLES.any (fun w => (pySplitWs (strLower sentence)).contains w)

/-- Embeds aspects.py _sentence_has_negative_indicators. -/
def sentence_has_negative_indicators (sentence : String) : Bool :=
  NEGATIVE_INDICATORS.any (fun w => (pySplitWs (strLower sentence)).contains w)

/-- Search for any keyword of an aspect at any position of the sentence
with word boundaries on both sides, case-insensitively: the boolean use of
the compiled _ASPECT_PATTERNS in aspects.py. -/
def wbSearchAux (kws : List (List Char)) (prev : Option Char) : List Char → Bool
  | [] => false
  | c :: cs =>
    (startBoundary prev &&
      kws.any (fun kw => matchesCI kw (c :: cs) && endBoundary ((c :: cs).drop kw.length)))
    || wbSearchAux kws (some c) cs

/-- Does the aspect keyword pattern match anywhere in the sentence? -/
def aspectPatternSearch (kws : List String) (sentence : String) : Bool :=
  wbSearchAux (kws.map (fun k => (strLower k).toList)) none (strLower sentence).toList

/-- Embeds aspects.py _score_sentence: raw VADER compound on the
Hinglish-normalised sentence, then negation flip, forbidden-positive clamp,
general negative-indicator clamp, and the final complaint floor.  The VADER
scorer (third-party library) is a parameter. -/
def score_sentence (vader : String → ℚ) (sentence : String) (aspect : String) : ℚ :=
  let normalised := normalize_hinglish sentence
  let compound := vader normalised
  let has_negation := sentence_has_negation sentence
  let has_neg_indicators := sentence_has_negative_indicators sentence
  let c1 := if compound > 0 ∧ has_negation then -|compound| else compound
  let c2 := if COMPLAINT_SENSITIVE_ASPECTS.contains aspect ∧ has_neg_indicators ∧ c1 > 0
            then (-3/10 : ℚ) else c1
  let c3 := if has_neg_indicators ∧ c2 > 0 then min c2 0 else c2
  let c4 := if has_neg_indicators ∧ c3 ≥ 0 then (-1/10 : ℚ) else c3
  c4

/-- Rounding of Python round(x, 4) over the rationals (ties round up; the
binary-float tie-to-even corner is not modelled). -/
def round4 (q : ℚ) : ℚ :=
  (round (q * 10000) : ℤ) / 10000

/-- Append v to the list held at key k of an association list, creating the
key at the end if absent: the setdefault(k, []).append(v) idiom. -/
def assocAppend (k : String) (v : String) :
    List (String × List String) → List (String × List String)
  | [] => [(k, [v])]
  | (k0, vs) :: rest =>
    if k0 = k then (k0, vs ++ [v]) :: rest
    else (k0, vs) :: assocAppend k v rest

/-- Per-aspect sentiment data of one analysis record. -/
structure AspectData where
  sentiment : String
  score : ℚ
  mentions : List String
  deriving Repr, DecidableEq

/-- Result shape of aspects.py detect_aspects. -/
structure AspectResult where
  aspects_detected : List String
  aspect_sentiments : List (String × AspectData)
  deriving Repr, DecidableEq

/-- Label of an averaged aspect score against the fixed thresholds
(aspects.py detect_aspects, classification step). -/
def aspectLabel (avg : ℚ) : String :=
  if avg > POSITIVE_THRESHOLD then "positive"
  else if avg < NEGATIVE_THRESHOLD then "negative"
  else "neutral"

/-- Embeds aspects.py detect_aspects: sentence split, per-aspect keyword
matching, corrected per-sentence scoring, mean aggregation, and up to three
retained evidence snippets.  vader and nfc are the external library
parameters. -/
def detect_aspects (vader : String → ℚ) (nfc : String → String)
    (review_text : String) : AspectResult :=
  if review_text = "" ∨ pyStrip review_text = "" then ⟨[], []⟩
  else
    let cleaned := clean_text nfc review_text
    let sentences := split_sentences cleaned
    let aspect_sentences :=
      sentences.foldl (fun acc sentence =>
        ASPECT_KEYWORDS.foldl (fun acc pr =>
          if aspectPatternSearch pr.2 sentence then assocAppend pr.1 sentence acc
          else acc) acc) []
    let aspect_sentiments := aspect_sentences.map (fun pr =>
      let scores := pr.2.map (fun sentence => score_sentence vader sentence pr.1)
      let avg := scores.sum / (scores.length : ℚ)
      (pr.1, AspectData.mk (aspectLabel avg) (round4 avg) (pr.2.take 3)))
    ⟨aspect_sentiments.map Prod.fst, aspect_sentiments⟩

/-! ## run_analysis.py — the analysis record and LLM fusion -/

/-- The per-review analysis record assembled in run_analysis.py main and
then passed through fusion and contract enforcement. -/
structure Record where
  review_id : String
  reviewer_name : String
  review_text : String
  rating : ℤ
  review_date : String
  overall_sentiment : String
  vader_compound : ℚ
  final_score : ℚ
  confidence : String
  rating_override : Bool
  aspects_detected : List String
  aspect_sentiments : List (String × AspectData)
  urgent : Bool
  urgency_reason : String
  severity_score : ℤ
  matched_patterns : List String
  llm_sentiment : Option String
  llm_reasoning : Option String
  deriving Repr, DecidableEq

/-- One validated aspect entry of a Gemini opinion
(gemini_agent.py _validate_response). -/
structure LlmAspect where
  aspect : String
  sentiment : String
  evidence : String
  deriving Repr, DecidableEq

/-- A validated Gemini opinion (gemini_agent.py _validate_response output;
urgency_reason is None or a non-empty enum value). -/
structure Opinion where
  overall_sentiment : String
  aspects : List LlmAspect
  urgent : Bool
  urgency_reason : Option String
  reasoning : String
  deriving Repr, DecidableEq

/-- Aspect-fusion step of run_analysis.py _fuse_results for one LLM aspect:
shared aspects take the LLM sentiment and append unseen non-empty evidence
to mentions; LLM-only aspects are added with a zero placeholder score. -/
def fuseAspect (d : List (String × AspectData)) (a : LlmAspect) :
    List (String × AspectData) :=
  if (d.lookup a.aspect).isSome then
    d.map (fun p =>
      if p.1 = a.aspect then
        let upd := { p.2 with sentiment := a.sentiment }
        let upd :=
          if a.evidence ≠ "" ∧ ¬ upd.mentions.contains a.evidence then
            { upd with mentions := upd.mentions ++ [a.evidence] }
          else upd
        (p.1, upd)
      else p)
  else d ++ [(a.aspect, AspectData.mk a.sentiment 0 [a.evidence])]

/-- Embeds run_analysis.py _fuse_results: merge an optional validated LLM
opinion into the deterministic record (sentiment precedence with
confidence caps, aspect union, urgency OR). -/
def fuse_results (record : Record) : Option Opinion → Record
  | none => { record with llm_sentiment := none, llm_reasoning := none }
  | some llm =>
    let record := { record with
      llm_sentiment := some llm.overall_sentiment
      llm_reasoning := some llm.reasoning }
    let record :=
      if record.overall_sentiment = llm.overall_sentiment then record
      else
        let is_safety_related :=
          record.urgent || llm.urgent ||
            llm.aspects.any (fun a => a.aspect = "hygiene" || a.aspect = "safety")
        let record := { record with overall_sentiment := llm.overall_sentiment }
        if is_safety_related then
          if record.confidence = "HIGH" then { record with confidence := "MEDIUM" }
          else record
        else { record with confidence := "LOW" }
    let det_aspects := llm.aspects.foldl fuseAspect record.aspect_sentiments
    let record := { record with
      aspect_sentiments := det_aspects
      aspects_detected := det_aspects.map Prod.fst }
    if llm.urgent && ! record.urgent then
      let record := { record with urgent := true }
      match llm.urgency_reason with
      | some reason => if reason ≠ "" then { record with urgency_reason := reason }
                       else record
      | none => record
    else record

/-! ## sentiment_rules.py — contract enforcement -/

/-- Complaint-indicator set of sentiment_rules.py
_enforce_aspect_sentiments (_COMPLAINT_INDICATORS). -/
def COMPLAINT_INDICATORS : List String :=
  ["poor", "bad", "worst", "terrible", "horrible", "dirty", "filthy",
   "rude", "slow", "concern", "issue", "issues", "problem", "unsafe",
   "improvement", "improve", "nonexistent", "stained", "flies",
   "cockroach", "unhygienic", "careless", "negligent", "shouting",
   "disrespectful", "mannerless", "pathetic", "disgusting",
   "not clean", "no railing", "negative"]

/-- Rule 1 of enforce_contract: urgency forces Negative sentiment. -/
def rule1 (r : Record) : Record :=
  if r.urgent ∧ r.overall_sentiment ≠ "Negative" then
    { r with overall_sentiment := "Negative", rating_override := true }
  else r

/-- Rule 2 of enforce_contract: severity at least 7 forces Negative. -/
def rule2 (r : Record) : Record :=
  if r.severity_score ≥ 7 ∧ r.overall_sentiment ≠ "Negative" then
    { r with overall_sentiment := "Negative", rating_override := true }
  else r

/-- Rule 3 of enforce_contract: rating 1-2 cannot be Positive. -/
def rule3 (r : Record) : Record :=
  if r.rating ≤ 2 ∧ r.overall_sentiment = "Positive" then
    { r with overall_sentiment := "Negative", rating_override := true }
  else r

/-- Rule 4 of enforce_contract: rating 3 cannot be Positive. -/
def rule4 (r : Record) : Record :=
  if r.rating = 3 ∧ r.overall_sentiment = "Positive" then
    { r with overall_sentiment := "Neutral", rating_override := true }
  else r

/-- Rule 6 of enforce_contract: a food_poisoning urgency reason may not
carry HIGH confidence. -/
def rule6 (r : Record) : Record :=
  if r.urgency_reason = "food_poisoning" ∧ r.confidence = "HIGH" then
    { r with confidence := "MEDIUM" }
  else r

/-- Body of sentiment_rules.py _enforce_aspect_sentiments for one aspect
entry: for hygiene, safety and service, complaint language in the retained
mentions or a 1-2 star rating forbids a positive or neutral label. -/
def enforce_aspect_entry (rating : ℤ) (p : String × AspectData) :
    String × AspectData :=
  if p.1 = "hygiene" ∨ p.1 = "safety" ∨ p.1 = "service" then
    let mentions_text := strLower (String.intercalate " " p.2.mentions)
    let has_complaint := COMPLAINT_INDICATORS.any (fun ind => containsSub mentions_text ind)
    let low_rating := rating ≤ 2
    if (p.2.sentiment = "positive" ∨ p.2.sentiment = "neutral") ∧
        (has_complaint ∨ low_rating) then
      (p.1, { p.2 with
        sentiment := "negative"
        score := if p.2.score > 0 then -|p.2.score| else p.2.score })
    else p
  else p

/-- Rule 7 of enforce_contract: sentiment_rules.py
_enforce_aspect_sentiments applied across the record's aspect map. -/
def rule7 (r : Record) : Record :=
  { r with aspect_sentiments := r.aspect_sentiments.map (enforce_aspect_entry r.rating) }

/-- Embeds sentiment_rules.py enforce_contract.  The two assert statements
(the entry confidence schema check and the rule-5 urgent-and-Positive
consistency check) are modelled as none results. -/
def enforce_contract (r : Record) : Option Record :=
  if r.confidence = "LOW" ∨ r.confidence = "MEDIUM" ∨ r.confidence = "HIGH" then
    let r1 := rule4 (rule3 (rule2 (rule1 r)))
    if r1.urgent ∧ r1.overall_sentiment = "Positive" then none
    else some (rule7 (rule6 r1))
  else none

/-! ## Concrete records used to instantiate the theorems below -/

/-- A minimal well-formed deterministic analysis record (rating 5, neutral,
no aspects, no urgency), used as the base of the concrete instances. -/
def baseRec : Record := {
  review_id := "r1"
  reviewer_name := "anon"
  review_text := "t"
  rating := 5
  review_date := "2024-01-01"
  overall_sentiment := "Neutral"
  vader_compound := 0
  final_score := 0
  confidence := "LOW"
  rating_override := false
  aspects_detected := []
  aspect_sentiments := []
  urgent := false
  urgency_reason := "none"
  severity_score := 0
  matched_patterns := []
  llm_sentiment := none
  llm_reasoning := none }

/-- A rating-5 deterministically Negative record. -/
def negFiveRec : Record :=
  { baseRec with overall_sentiment := "Negative", confidence := "MEDIUM" }

/-- A validated opinion that disagrees Positively, flags nothing urgent and
names no aspects. -/
def happyOpinion : Opinion := {
  overall_sentiment := "Positive"
  aspects := []
  urgent := false
  urgency_reason := none
  reasoning := "sounds happy" }

/-- Aspect-detection output of the four-sentence food review used in the
mention-bound instance, with the external scorer fixed to zero and NFC the
identity (the text is ASCII). -/
def foodDet : AspectResult :=
  detect_aspects (fun _ => 0) (fun s => s) "Dosa ok. Idli ok. Vada ok. Puri ok."

/-- Deterministic record carrying the three retained food mentions. -/
def foodRec : Record := { baseRec with
  review_text := "Dosa ok. Idli ok. Vada ok. Puri ok."
  aspects_detected := foodDet.aspects_detected
  aspect_sentiments := foodDet.aspect_sentiments }

/-- Opinion adding a fourth, unseen evidence snippet to the food aspect. -/
def foodOpinion : Opinion := {
  overall_sentiment := "Neutral"
  aspects := [{ aspect := "food", sentiment := "positive", evidence := "tasty snack" }]
  urgent := false
  urgency_reason := none
  reasoning := "ok" }

/-- Pipeline output of fusing foodRec with foodOpinion and enforcing the
contract: the food aspect now carries four evidence snippets. -/
def foodRecOut : Record := { baseRec with
  review_text := "Dosa ok. Idli ok. Vada ok. Puri ok."
  aspects_detected := ["food"]
  aspect_sentiments :=
    [("food", AspectData.mk "positive" 0
      ["Dosa ok.", "Idli ok.", "Vada ok.", "tasty snack"])]
  llm_sentiment := some "Neutral"
  llm_reasoning := some "ok" }

/-- A validated opinion that flags urgency the deterministic side missed. -/
def urgentOpinion : Opinion := {
  overall_sentiment := "Neutral"
  aspects := []
  urgent := true
  urgency_reason := some "rude_staff"
  reasoning := "implied threat" }

/-- Record with only the urgency flag raised. -/
def urgentRec : Record := { baseRec with urgent := true }

/-- Expected enforcement output for urgentRec. -/
def urgentRecOut : Record :=
  { baseRec with urgent := true, overall_sentiment := "Negative", rating_override := true }

/-- A 2-star record whose upstream stages produced "Positive". -/
def lowPosRec : Record := { baseRec with rating := 2, overall_sentiment := "Positive" }

/-- Expected enforcement output for lowPosRec. -/
def lowPosRecOut : Record :=
  { baseRec with rating := 2, overall_sentiment := "Negative", rating_override := true }

/-- A HIGH-confidence deterministic record read as Positive. -/
def highPosRec : Record :=
  { baseRec with overall_sentiment := "Positive", confidence := "HIGH" }

/-- Pipeline output of fusing negFiveRec with happyOpinion and enforcing the
contract: the disagreeing opinion wins and rating 5 imposes no ceiling. -/
def upgradedRec : Record := { negFiveRec with
  overall_sentiment := "Positive"
  confidence := "LOW"
  llm_sentiment := some "Positive"
  llm_reasoning := some "sounds happy" }

/-- Pipeline output of fusing baseRec with urgentOpinion and enforcing the
contract: urgent with the deterministic severity still zero. -/
def llmUrgentOut : Record := { baseRec with
  overall_sentiment := "Negative"
  rating_override := true
  urgent := true
  urgency_reason := "rude_staff"
  llm_sentiment := some "Neutral"
  llm_reasoning := some "implied threat" }

/-! ## Helper lemmas about the enforcement rules -/

theorem rule1_keeps (r : Record) :
    (rule1 r).urgent = r.urgent ∧ (rule1 r).severity_score = r.severity_score ∧
    (rule1 r).rating = r.rating ∧ (rule1 r).urgency_reason = r.urgency_reason ∧
    (rule1 r).confidence = r.confidence ∧
    (rule1 r).aspect_sentiments = r.aspect_sentiments := by
  unfold rule1; split <;> simp

theorem rule2_keeps (r : Record) :
    (rule2 r).urgent = r.urgent ∧ (rule2 r).severity_score = r.severity_score ∧
    (rule2 r).rating = r.rating ∧ (rule2 r).urgency_reason = r.urgency_reason ∧
    (rule2 r).confidence = r.confidence ∧
    (rule2 r).aspect_sentiments = r.aspect_sentiments := by
  unfold rule2; split <;> simp

theorem rule3_keeps (r : Record) :
    (rule3 r).urgent = r.urgent ∧ (rule3 r).severity_score = r.severity_score ∧
    (rule3 r).rating = r.rating ∧ (rule3 r).urgency_reason = r.urgency_reason ∧
    (rule3 r).confidence = r.confidence ∧
    (rule3 r).aspect_sentiments = r.aspect_sentiments := by
  unfold rule3; split <;> simp

theorem rule4_keeps (r : Record) :
    (rule4 r).urgent = r.urgent ∧ (rule4 r).severity_score = r.severity_score ∧
    (rule4 r).rating = r.rating ∧ (rule4 r).urgency_reason = r.urgency_reason ∧
    (rule4 r).confidence = r.confidence ∧
    (rule4 r).aspect_sentiments = r.aspect_sentiments := by
  unfold rule4; split <;> simp

theorem rule6_keeps (r : Record) :
    (rule6 r).urgent = r.urgent ∧ (rule6 r).severity_score = r.severity_score ∧
    (rule6 r).rating = r.rating ∧ (rule6 r).urgency_reason = r.urgency_reason ∧
    (rule6 r).overall_sentiment = r.overall_sentiment ∧
    (rule6 r).aspect_sentiments = r.aspect_sentiments := by
  unfold rule6; split <;> simp

theorem rule7_keeps (r : Record) :
    (rule7 r).urgent = r.urgent ∧ (rule7 r).severity_score = r.severity_score ∧
    (rule7 r).rating = r.rating ∧ (rule7 r).urgency_reason = r.urgency_reason ∧
    (rule7 r).overall_sentiment = r.overall_sentiment ∧
    (rule7 r).confidence = r.confidence := by
  unfold rule7; simp

theorem rule1_neg (r : Record) (h : r.urgent = true) :
    (rule1 r).overall_sentiment = "Negative" := by
  unfold rule1; split <;> simp_all

theorem rule2_neg (r : Record) (h : r.severity_score ≥ 7) :
    (rule2 r).overall_sentiment = "Negative" := by
  unfold rule2; split <;> simp_all

theorem rule3_npos (r : Record) (h : r.rating ≤ 2) :
    (rule3 r).overall_sentiment ≠ "Positive" := by
  unfold rule3; split <;> simp_all

theorem rule4_npos (r : Record) (h : r.rating = 3) :
    (rule4 r).overall_sentiment ≠ "Positive" := by
  unfold rule4; split <;> simp_all

theorem rule2_neg_stable (r : Record) (h : r.overall_sentiment = "Negative") :
    (rule2 r).overall_sentiment = "Negative" := by
  unfold rule2; split <;> simp_all

theorem rule3_neg_stable (r : Record) (h : r.overall_sentiment = "Negative") :
    (rule3 r).overall_sentiment = "Negative" := by
  unfold rule3; split <;> simp_all

theorem rule4_neg_stable (r : Record) (h : r.overall_sentiment = "Negative") :
    (rule4 r).overall_sentiment = "Negative" := by
  unfold rule4; split <;> simp_all

theorem rule4_pos_intro (r : Record) (h : (rule4 r).overall_sentiment = "Positive") :
    r.overall_sentiment = "Positive" := by
  unfold rule4 at h; split at h <;> simp_all

theorem rule6_fp (r : Record) (h : r.urgency_reason = "food_poisoning") :
    (rule6 r).confidence ≠ "HIGH" := by
  unfold rule6; split <;> simp_all

theorem rule6_conf_cases (r : Record) :
    (rule6 r).confidence = r.confidence ∨ (rule6 r).confidence = "MEDIUM" := by
  unfold rule6; split <;> simp

theorem rule1_noop (r : Record) (h : r.urgent = true → r.overall_sentiment = "Negative") :
    rule1 r = r := by
  unfold rule1; split <;> simp_all

theorem rule2_noop (r : Record)
    (h : r.severity_score ≥ 7 → r.overall_sentiment = "Negative") :
    rule2 r = r := by
  unfold rule2; split <;> simp_all

theorem rule3_noop (r : Record)
    (h : r.rating ≤ 2 → r.overall_sentiment ≠ "Positive") :
    rule3 r = r := by
  unfold rule3; split <;> simp_all

theorem rule4_noop (r : Record)
    (h : r.rating = 3 → r.overall_sentiment ≠ "Positive") :
    rule4 r = r := by
  unfold rule4; split <;> simp_all

theorem rule6_noop (r : Record)
    (h : r.urgency_reason = "food_poisoning" → r.confidence ≠ "HIGH") :
    rule6 r = r := by
  unfold rule6; split <;> simp_all

theorem enforce_aspect_entry_mentions (rt : ℤ) (p : String × AspectData) :
    (enforce_aspect_entry rt p).2.mentions = p.2.mentions ∧
    (enforce_aspect_entry rt p).1 = p.1 := by
  unfold enforce_aspect_entry
  split
  · dsimp only
    split <;> simp
  · simp

theorem enforce_aspect_entry_cases (rt : ℤ) (p : String × AspectData) :
    enforce_aspect_entry rt p = p ∨ (enforce_aspect_entry rt p).2.sentiment = "negative" := by
  unfold enforce_aspect_entry
  split
  · dsimp only
    split
    · right; rfl
    · left; rfl
  · left; rfl

theorem enforce_aspect_entry_neg_noop (rt : ℤ) (p : String × AspectData)
    (h : p.2.sentiment = "negative") : enforce_aspect_entry rt p = p := by
  unfold enforce_aspect_entry
  split
  · dsimp only
    split
    · rename_i hc
      rcases hc with ⟨h1, _⟩
      rcases h1 with h1 | h1 <;> rw [h] at h1 <;> exact absurd h1 (by decide)
    · rfl
  · rfl

theorem enforce_aspect_entry_idem (rt : ℤ) (p : String × AspectData) :
    enforce_aspect_entry rt (enforce_aspect_entry rt p) = enforce_aspect_entry rt p := by
  rcases enforce_aspect_entry_cases rt p with h | h
  · rw [h]
    exact h
  · exact enforce_aspect_entry_neg_noop rt (enforce_aspect_entry rt p) h

/-- Inversion of a successful enforce_contract run: the entry confidence
check passed, the rule-5 assertion did not fire, and the output is the
composition of the rewrite rules. -/
theorem enforce_some_eq {r r' : Record} (h : enforce_contract r = some r') :
    (r.confidence = "LOW" ∨ r.confidence = "MEDIUM" ∨ r.confidence = "HIGH") ∧
    ¬((rule4 (rule3 (rule2 (rule1 r)))).urgent = true ∧
       (rule4 (rule3 (rule2 (rule1 r)))).overall_sentiment = "Positive") ∧
    r' = rule7 (rule6 (rule4 (rule3 (rule2 (rule1 r))))) := by
  unfold enforce_contract at h
  split at h
  · dsimp only at h
    split at h
    · exact absurd h (by simp)
    · refine ⟨by assumption, by simp_all, by injection h; simp_all⟩
  · exact absurd h (by simp)

theorem rule1_neg_stable (r : Record) (h : r.overall_sentiment = "Negative") :
    (rule1 r).overall_sentiment = "Negative" := by
  unfold rule1; split <;> simp_all

theorem preR_keeps (r : Record) :
    (rule4 (rule3 (rule2 (rule1 r)))).urgent = r.urgent ∧
    (rule4 (rule3 (rule2 (rule1 r)))).severity_score = r.severity_score ∧
    (rule4 (rule3 (rule2 (rule1 r)))).rating = r.rating ∧
    (rule4 (rule3 (rule2 (rule1 r)))).urgency_reason = r.urgency_reason ∧
    (rule4 (rule3 (rule2 (rule1 r)))).confidence = r.confidence ∧
    (rule4 (rule3 (rule2 (rule1 r)))).aspect_sentiments = r.aspect_sentiments := by
  obtain ⟨a1, b1, c1, d1, e1, f1⟩ := rule1_keeps r
  obtain ⟨a2, b2, c2, d2, e2, f2⟩ := rule2_keeps (rule1 r)
  obtain ⟨a3, b3, c3, d3, e3, f3⟩ := rule3_keeps (rule2 (rule1 r))
  obtain ⟨a4, b4, c4, d4, e4, f4⟩ := rule4_keeps (rule3 (rule2 (rule1 r)))
  exact ⟨by rw [a4, a3, a2, a1], by rw [b4, b3, b2, b1], by rw [c4, c3, c2, c1],
         by rw [d4, d3, d2, d1], by rw [e4, e3, e2, e1], by rw [f4, f3, f2, f1]⟩

theorem preR_neg_of_urgent (r : Record) (h : r.urgent = true) :
    (rule4 (rule3 (rule2 (rule1 r)))).overall_sentiment = "Negative" :=
  rule4_neg_stable _ (rule3_neg_stable _ (rule2_neg_stable _ (rule1_neg r h)))

theorem preR_neg_of_sev (r : Record) (h : r.severity_score ≥ 7) :
    (rule4 (rule3 (rule2 (rule1 r)))).overall_sentiment = "Negative" := by
  have hs : (rule1 r).severity_score ≥ 7 := by rw [(rule1_keeps r).2.1]; exact h
  exact rule4_neg_stable _ (rule3_neg_stable _ (rule2_neg (rule1 r) hs))

theorem preR_npos_of_lowrating (r : Record) (h : r.rating ≤ 2) :
    (rule4 (rule3 (rule2 (rule1 r)))).overall_sentiment ≠ "Positive" := by
  intro hp
  have h3 : (rule2 (rule1 r)).rating ≤ 2 := by
    rw [(rule2_keeps (rule1 r)).2.2.1, (rule1_keeps r).2.2.1]; exact h
  exact rule3_npos (rule2 (rule1 r)) h3 (rule4_pos_intro _ hp)

theorem preR_npos_of_rating3 (r : Record) (h : r.rating = 3) :
    (rule4 (rule3 (rule2 (rule1 r)))).overall_sentiment ≠ "Positive" := by
  apply rule4_npos
  rw [(rule3_keeps (rule2 (rule1 r))).2.2.1, (rule2_keeps (rule1 r)).2.2.1,
      (rule1_keeps r).2.2.1]
  exact h

theorem preR_neg_stable (r : Record) (h : r.overall_sentiment = "Negative") :
    (rule4 (rule3 (rule2 (rule1 r)))).overall_sentiment = "Negative" :=
  rule4_neg_stable _ (rule3_neg_stable _ (rule2_neg_stable _ (rule1_neg_stable r h)))

/-- Field summary of a successful enforce_contract run: the audit fields
urgent, severity, rating and urgency_reason pass through unchanged, and the
final sentiment is the one computed by rules 1-4. -/
theorem enforce_facts {r r' : Record} (h : enforce_contract r = some r') :
    r'.urgent = r.urgent ∧ r'.severity_score = r.severity_score ∧
    r'.rating = r.rating ∧ r'.urgency_reason = r.urgency_reason ∧
    r'.overall_sentiment = (rule4 (rule3 (rule2 (rule1 r)))).overall_sentiment := by
  obtain ⟨-, -, heq⟩ := enforce_some_eq h
  obtain ⟨p1, p2, p3, p4, p5, -⟩ := preR_keeps r
  obtain ⟨x1, x2, x3, x4, x5, -⟩ := rule6_keeps (rule4 (rule3 (rule2 (rule1 r))))
  obtain ⟨y1, y2, y3, y4, y5, -⟩ := rule7_keeps (rule6 (rule4 (rule3 (rule2 (rule1 r)))))
  subst heq
  exact ⟨by rw [y1, x1, p1], by rw [y2, x2, p2], by rw [y3, x3, p3],
         by rw [y4, x4, p4], by rw [y5, x5]⟩

theorem enforce_conf_nohigh {r r' : Record} (h : enforce_contract r = some r')
    (hc : r.confidence ≠ "HIGH") : r'.confidence ≠ "HIGH" := by
  obtain ⟨-, -, heq⟩ := enforce_some_eq h
  obtain ⟨-, -, -, -, -, -⟩ := preR_keeps r
  subst heq
  rw [(rule7_keeps (rule6 (rule4 (rule3 (rule2 (rule1 r)))))).2.2.2.2.2]
  rcases rule6_conf_cases (rule4 (rule3 (rule2 (rule1 r)))) with hq | hq
  · rw [hq, (preR_keeps r).2.2.2.2.1]
    exact hc
  · rw [hq]
    decide

/-! ## Claim theorems -/

/-- C1: for every record emitted by the pipeline (every record returned by
enforce_contract), urgent = true implies overall_sentiment = "Negative",
regardless of what any upstream stage produced. -/
theorem urgent_forces_negative (r r' : Record)
    (h : enforce_contract r = some r') (hu : r'.urgent = true) :
    r'.overall_sentiment = "Negative" := by
  obtain ⟨hu', -, -, -, hs⟩ := enforce_facts h
  rw [hs]
  exact preR_neg_of_urgent r (hu' ▸ hu)

theorem urgent_forces_negative_witness :
    enforce_contract urgentRec = some urgentRecOut ∧
    urgentRecOut.urgent = true ∧
    urgentRecOut.overall_sentiment = "Negative" :=
  ⟨by decide, by decide, urgent_forces_negative urgentRec urgentRecOut (by decide) (by decide)⟩

/-- C3: for every record emitted by the pipeline, rating at most 2 implies
the overall sentiment is not "Positive". -/
theorem low_rating_never_positive (r r' : Record)
    (h : enforce_contract r = some r') (hr : r'.rating ≤ 2) :
    r'.overall_sentiment ≠ "Positive" := by
  obtain ⟨-, -, hr', -, hs⟩ := enforce_facts h
  rw [hs]
  exact preR_npos_of_lowrating r (hr' ▸ hr)

theorem low_rating_never_positive_witness :
    enforce_contract lowPosRec = some lowPosRecOut ∧
    lowPosRecOut.rating ≤ 2 ∧
    lowPosRecOut.overall_sentiment ≠ "Positive" :=
  ⟨by decide, by decide, low_rating_never_positive lowPosRec lowPosRecOut (by decide) (by decide)⟩

/-- C9: the rule-5 internal-consistency assertion of enforce_contract is
unreachable: every record passing the entry confidence check is enforced
successfully (enforce_contract never returns the assertion-failure result),
because after rules 1-2 urgent together with "Positive" cannot occur. -/
theorem rule5_assertion_unreachable (r : Record)
    (hc : r.confidence = "LOW" ∨ r.confidence = "MEDIUM" ∨ r.confidence = "HIGH") :
    (enforce_contract r).isSome = true := by
  have hq : ¬((rule4 (rule3 (rule2 (rule1 r)))).urgent = true ∧
      (rule4 (rule3 (rule2 (rule1 r)))).overall_sentiment = "Positive") := by
    rintro ⟨hu, hp⟩
    have hru : r.urgent = true := by rw [← (preR_keeps r).1]; exact hu
    rw [preR_neg_of_urgent r hru] at hp
    exact absurd hp (by decide)
  unfold enforce_contract
  rw [if_pos hc]
  dsimp only
  rw [if_neg hq]
  rfl

theorem rule7_aspects (r : Record) :
    (rule7 r).aspect_sentiments = r.aspect_sentiments.map (enforce_aspect_entry r.rating) :=
  rfl

/-- C2: enforce_contract is idempotent — on any record it enforces
successfully, a second application returns the same record, every field
(sentiment, confidence, rating_override, aspect sentiments, scores and
mentions) included. -/
theorem enforce_contract_idempotent (r r' : Record)
    (h : enforce_contract r = some r') : enforce_contract r' = some r' := by
  obtain ⟨hc, -, heq⟩ := enforce_some_eq h
  obtain ⟨fu, fs, fr, fz, fsent⟩ := enforce_facts h
  have P2 : r'.urgent = true → r'.overall_sentiment = "Negative" := fun hu => by
    rw [fsent]
    exact preR_neg_of_urgent r (by rw [← fu]; exact hu)
  have P3 : r'.severity_score ≥ 7 → r'.overall_sentiment = "Negative" := fun hs => by
    rw [fsent]
    exact preR_neg_of_sev r (by rw [← fs]; exact hs)
  have P4 : r'.rating ≤ 2 → r'.overall_sentiment ≠ "Positive" := fun hr2 => by
    rw [fsent]
    exact preR_npos_of_lowrating r (by rw [← fr]; exact hr2)
  have P5 : r'.rating = 3 → r'.overall_sentiment ≠ "Positive" := fun hr3 => by
    rw [fsent]
    exact preR_npos_of_rating3 r (by rw [← fr]; exact hr3)
  have hconf7 : r'.confidence = (rule6 (rule4 (rule3 (rule2 (rule1 r))))).confidence := by
    rw [heq]
    exact (rule7_keeps _).2.2.2.2.2
  have P7 : r'.confidence = "LOW" ∨ r'.confidence = "MEDIUM" ∨ r'.confidence = "HIGH" := by
    rw [hconf7]
    rcases rule6_conf_cases (rule4 (rule3 (rule2 (rule1 r)))) with hq | hq
    · rw [hq, (preR_keeps r).2.2.2.2.1]
      exact hc
    · rw [hq]
      right; left; rfl
  have P6 : r'.urgency_reason = "food_poisoning" → r'.confidence ≠ "HIGH" := fun hfp => by
    have hz : (rule4 (rule3 (rule2 (rule1 r)))).urgency_reason = "food_poisoning" := by
      rw [(preR_keeps r).2.2.2.1, ← fz]
      exact hfp
    rw [hconf7]
    exact rule6_fp _ hz
  have P8 : r'.aspect_sentiments.map (enforce_aspect_entry r'.rating) =
      r'.aspect_sentiments := by
    have hasp : r'.aspect_sentiments =
        (rule4 (rule3 (rule2 (rule1 r)))).aspect_sentiments.map
          (enforce_aspect_entry (rule4 (rule3 (rule2 (rule1 r)))).rating) := by
      rw [heq, rule7_aspects,
          (rule6_keeps (rule4 (rule3 (rule2 (rule1 r))))).2.2.2.2.2,
          (rule6_keeps (rule4 (rule3 (rule2 (rule1 r))))).2.2.1]
    have hrt : r'.rating = (rule4 (rule3 (rule2 (rule1 r)))).rating := by
      rw [fr, (preR_keeps r).2.2.1]
    rw [hasp, hrt, List.map_map]
    refine List.map_congr_left ?_
    intro p _
    exact enforce_aspect_entry_idem _ p
  have e1 : rule1 r' = r' := rule1_noop r' P2
  have e2 : rule2 r' = r' := rule2_noop r' P3
  have e3 : rule3 r' = r' := rule3_noop r' P4
  have e4 : rule4 r' = r' := rule4_noop r' P5
  have e6 : rule6 r' = r' := rule6_noop r' P6
  have e7 : rule7 r' = r' := by
    unfold rule7
    rw [P8]
  have hna : ¬(r'.urgent = true ∧ r'.overall_sentiment = "Positive") := by
    rintro ⟨hu, hp⟩
    rw [P2 hu] at hp
    exact absurd hp (by decide)
  unfold enforce_contract
  rw [if_pos P7]
  dsimp only
  rw [e1, e2, e3, e4, if_neg hna, e6, e7]

theorem enforce_contract_idempotent_witness :
    enforce_contract urgentRec = some urgentRecOut ∧
    enforce_contract urgentRecOut = some urgentRecOut :=
  ⟨by decide, enforce_contract_idempotent urgentRec urgentRecOut (by decide)⟩

theorem rule5_assertion_unreachable_witness :
    (baseRec.confidence = "LOW" ∨ baseRec.confidence = "MEDIUM" ∨
      baseRec.confidence = "HIGH") ∧
    (enforce_contract baseRec).isSome = true :=
  ⟨by decide, rule5_assertion_unreachable baseRec (by decide)⟩

/-- C8: the VADER guardrail pass only tightens — for every score in
[-1, 1], every text and every rating, the guarded score is at most the
input score; no guardrail, alone or in composition, ever raises it. -/
theorem guardrails_only_tighten (score : ℚ) (text : String) (rating : ℤ)
    (hlo : -1 ≤ score) (hhi : score ≤ 1) :
    apply_vader_guardrails score text rating ≤ score := by
  unfold apply_vader_guardrails
  dsimp only
  split_ifs <;>
    linarith [neg_abs_le score, abs_nonneg score,
      min_le_left score (-1/10 : ℚ), min_le_right score (-1/10 : ℚ),
      min_le_left (-|score|) (-1/10 : ℚ), min_le_right (-|score|) (-1/10 : ℚ)]

theorem fuse_conf_of_disagree (r : Record) (op : Opinion)
    (hdis : r.overall_sentiment ≠ op.overall_sentiment) :
    (fuse_results r (some op)).confidence ≠ "HIGH" := by
  obtain ⟨os, oaspects, ourgent, oreason, oreasoning⟩ := op
  simp only at hdis
  unfold fuse_results
  dsimp only
  rw [if_neg hdis]
  cases oreason with
  | none => split_ifs <;> simp_all
  | some reason =>
      split_ifs
      all_goals try rw [apply_ite Record.confidence]
      all_goals simp_all

/-- C6: whenever a validated opinion disagrees with the deterministic
sentiment and the disagreement touches a safety context (the opinion names a
hygiene or safety aspect, or either side flags urgency), the fused record's
confidence is never "HIGH", and contract enforcement preserves that cap. -/
theorem safety_disagreement_caps_confidence (r : Record) (op : Opinion)
    (hdis : r.overall_sentiment ≠ op.overall_sentiment)
    (hsafe : r.urgent = true ∨ op.urgent = true ∨
      op.aspects.any (fun a => a.aspect = "hygiene" || a.aspect = "safety") = true) :
    (fuse_results r (some op)).confidence ≠ "HIGH" ∧
    ∀ r', enforce_contract (fuse_results r (some op)) = some r' →
      r'.confidence ≠ "HIGH" := by
  have hf : (fuse_results r (some op)).confidence ≠ "HIGH" :=
    fuse_conf_of_disagree r op hdis
  exact ⟨hf, fun _ h => enforce_conf_nohigh h hf⟩

theorem safety_disagreement_caps_confidence_witness :
    highPosRec.overall_sentiment ≠ urgentOpinion.overall_sentiment ∧
    (highPosRec.urgent = true ∨ urgentOpinion.urgent = true ∨
      urgentOpinion.aspects.any
        (fun a => a.aspect = "hygiene" || a.aspect = "safety") = true) ∧
    ((fuse_results highPosRec (some urgentOpinion)).confidence ≠ "HIGH" ∧
      ∀ r', enforce_contract (fuse_results highPosRec (some urgentOpinion)) = some r' →
        r'.confidence ≠ "HIGH") :=
  ⟨by decide, by decide,
   safety_disagreement_caps_confidence highPosRec urgentOpinion (by decide) (by decide)⟩

/-- C4, counterexample: a rating-5 record whose deterministic analysis is
Negative is upgraded to Positive by fusion with a disagreeing non-urgent
opinion, and contract enforcement emits it as Positive. -/
theorem rating_ceiling_nonupgrade_counterexample :
    negFiveRec.rating = 5 ∧ negFiveRec.overall_sentiment = "Negative" ∧
    enforce_contract (fuse_results negFiveRec (some happyOpinion)) = some upgradedRec ∧
    upgradedRec.overall_sentiment = "Positive" := by
  decide

/-- C4, amended: for a rating-5 review whose deterministic analysis is
Negative, the rating ceiling leaves the verdict Negative and unclamped, and
when no external opinion is fused the emitted record is still Negative after
contract enforcement; only fusion with a disagreeing opinion can change
it. -/
theorem rating_ceiling_nonupgrade_amended (r : Record)
    (h5 : r.rating = 5) (hneg : r.overall_sentiment = "Negative") :
    enforce_rating_ceiling r.overall_sentiment r.rating = ("Negative", false) ∧
    (fuse_results r none).overall_sentiment = "Negative" ∧
    ∀ r', enforce_contract (fuse_results r none) = some r' →
      r'.overall_sentiment = "Negative" := by
  refine ⟨by rw [hneg, h5]; decide, by simp [fuse_results, hneg], ?_⟩
  intro r' h
  have hx : (fuse_results r none).overall_sentiment = "Negative" := by
    simp [fuse_results, hneg]
  obtain ⟨-, -, -, -, hs⟩ := enforce_facts h
  rw [hs]
  exact preR_neg_stable _ hx

theorem rating_ceiling_nonupgrade_amended_witness :
    negFiveRec.rating = 5 ∧ negFiveRec.overall_sentiment = "Negative" ∧
    (enforce_rating_ceiling negFiveRec.overall_sentiment negFiveRec.rating =
        ("Negative", false) ∧
      (fuse_results negFiveRec none).overall_sentiment = "Negative" ∧
      ∀ r', enforce_contract (fuse_results negFiveRec none) = some r' →
        r'.overall_sentiment = "Negative") :=
  ⟨by decide, by decide,
   rating_ceiling_nonupgrade_amended negFiveRec (by decide) (by decide)⟩

/-- C10: fusion never modifies severity_score, and detect_urgency output
satisfies urgent = (severity_score at or above the threshold); yet an
emitted record fused from an urgency-flagging opinion has urgent = true with
severity_score still 0, so that relation does not hold of every emitted
record. -/
theorem fusion_severity_frame (r : Record) (o : Option Opinion) (t : String) (rt : ℤ) :
    (fuse_results r o).severity_score = r.severity_score ∧
    (detect_urgency t rt).urgent =
      decide ((detect_urgency t rt).severity_score ≥ URGENCY_THRESHOLD) ∧
    (enforce_contract (fuse_results baseRec (some urgentOpinion)) = some llmUrgentOut ∧
      llmUrgentOut.urgent = true ∧ llmUrgentOut.severity_score < URGENCY_THRESHOLD) := by
  refine ⟨?_, ?_, by decide⟩
  · cases o with
    | none => rfl
    | some op =>
        obtain ⟨os, oaspects, ourgent, oreason, oreasoning⟩ := op
        unfold fuse_results
        dsimp only
        cases oreason with
        | none => split_ifs <;> rfl
        | some reason =>
            split_ifs
            all_goals try rw [apply_ite Record.severity_score]
            all_goals simp
  · unfold detect_urgency
    dsimp only
    split
    · rfl
    · rfl

theorem urgencyStep_skip (tl : String) (st : UrgencyScan) (c : UrgencyCat)
    (h : (c.keywords.filter (fun kw => containsSub tl kw)).isEmpty = true) :
    urgencyStep tl st c = st := by
  unfold urgencyStep
  dsimp only
  rw [h]
  rfl

theorem urgencyStep_le (tl : String) (st : UrgencyScan) (c : UrgencyCat)
    (hsev : c.severity ≤ st.max_severity) (hne : st.all_matches.isEmpty = false) :
    (urgencyStep tl st c).max_severity = st.max_severity ∧
    (urgencyStep tl st c).best_is_health_safety = st.best_is_health_safety ∧
    (urgencyStep tl st c).all_matches.isEmpty = false := by
  unfold urgencyStep
  dsimp only
  split
  · exact ⟨rfl, rfl, hne⟩
  · split
    · rename_i hgt
      exact absurd hgt (by omega)
    · refine ⟨rfl, rfl, ?_⟩
      dsimp only
      rcases hm : st.all_matches with - | ⟨a, rest⟩
      · rw [hm] at hne
        exact absurd hne (by decide)
      · rfl

theorem foldl_urgencyStep_le (tl : String) (cats : List UrgencyCat) (st : UrgencyScan)
    (h : ∀ c ∈ cats, c.severity ≤ st.max_severity) (hne : st.all_matches.isEmpty = false) :
    (cats.foldl (urgencyStep tl) st).max_severity = st.max_severity ∧
    (cats.foldl (urgencyStep tl) st).best_is_health_safety = st.best_is_health_safety ∧
    (cats.foldl (urgencyStep tl) st).all_matches.isEmpty = false := by
  induction cats generalizing st with
  | nil => exact ⟨rfl, rfl, hne⟩
  | cons c cs ih =>
    obtain ⟨e1, e2, e3⟩ :=
      urgencyStep_le tl st c (h c (List.mem_cons_self c cs)) hne
    rw [List.foldl_cons]
    obtain ⟨f1, f2, f3⟩ := ih (urgencyStep tl st c)
      (fun d hd => e1 ▸ h d (List.mem_cons_of_mem c hd)) e3
    exact ⟨f1.trans e1, f2.trans e2, f3⟩

/-- C5: detect_urgency applies the rating modifier only when the
highest-severity matched category is not health/safety — any review matching
a food_poisoning keyword keeps severity 10 and urgent = true at rating 5,
while a review matching only rude_staff keywords at rating 5 has severity
6 - 3 = 3 and is not urgent. -/
theorem urgency_rating_modifier (t1 t2 : String)
    (hb1 : ¬(t1 = "" ∨ pyStrip t1 = ""))
    (hf1 : (FOOD_POISONING_KW.filter (fun kw => containsSub (strLower t1) kw)).isEmpty = false)
    (hb2 : ¬(t2 = "" ∨ pyStrip t2 = ""))
    (hr2 : (RUDE_STAFF_KW.filter (fun kw => containsSub (strLower t2) kw)).isEmpty = false)
    (hn1 : (FOOD_POISONING_KW.filter (fun kw => containsSub (strLower t2) kw)).isEmpty = true)
    (hn2 : (HYGIENE_SEVERE_KW.filter (fun kw => containsSub (strLower t2) kw)).isEmpty = true)
    (hn3 : (AUTHORITY_ESCALATION_KW.filter
      (fun kw => containsSub (strLower t2) kw)).isEmpty = true)
    (hn4 : (SAFETY_CONCERN_KW.filter (fun kw => containsSub (strLower t2) kw)).isEmpty = true) :
    (detect_urgency t1 5).severity_score = 10 ∧ (detect_urgency t1 5).urgent = true ∧
    (detect_urgency t2 5).severity_score = 3 ∧ (detect_urgency t2 5).urgent = false := by
  have hstep1 : urgencyStep (strLower t1) ⟨0, "none", false, []⟩
      ⟨"food_poisoning", FOOD_POISONING_KW, 10⟩ =
      ⟨10, "food_poisoning", true,
        [] ++ FOOD_POISONING_KW.filter (fun kw => containsSub (strLower t1) kw)⟩ := by
    unfold urgencyStep
    dsimp only
    rw [hf1]
    rfl
  have hfold1 := foldl_urgencyStep_le (strLower t1)
    [⟨"hygiene_severe", HYGIENE_SEVERE_KW, 9⟩,
     ⟨"authority_escalation", AUTHORITY_ESCALATION_KW, 8⟩,
     ⟨"safety_concern", SAFETY_CONCERN_KW, 7⟩,
     ⟨"rude_staff", RUDE_STAFF_KW, 6⟩]
    ⟨10, "food_poisoning", true,
      [] ++ FOOD_POISONING_KW.filter (fun kw => containsSub (strLower t1) kw)⟩
    (by intro c hc; fin_cases hc <;> norm_num)
    (by rw [List.nil_append, hf1])
  have ht1 : URGENCY_PATTERNS.foldl (urgencyStep (strLower t1)) ⟨0, "none", false, []⟩ =
      [⟨"hygiene_severe", HYGIENE_SEVERE_KW, 9⟩,
       ⟨"authority_escalation", AUTHORITY_ESCALATION_KW, 8⟩,
       ⟨"safety_concern", SAFETY_CONCERN_KW, 7⟩,
       ⟨"rude_staff", RUDE_STAFF_KW, 6⟩].foldl (urgencyStep (strLower t1))
        ⟨10, "food_poisoning", true,
          [] ++ FOOD_POISONING_KW.filter (fun kw => containsSub (strLower t1) kw)⟩ := by
    rw [URGENCY_PATTERNS, List.foldl_cons, hstep1]
  obtain ⟨hmax1, hbhs1, -⟩ := hfold1
  rw [← ht1] at hmax1 hbhs1
  have hskips : URGENCY_PATTERNS.foldl (urgencyStep (strLower t2)) ⟨0, "none", false, []⟩ =
      ⟨6, "rude_staff", false,
        [] ++ RUDE_STAFF_KW.filter (fun kw => containsSub (strLower t2) kw)⟩ := by
    rw [URGENCY_PATTERNS, List.foldl_cons,
        urgencyStep_skip (strLower t2) _ _ hn1, List.foldl_cons,
        urgencyStep_skip (strLower t2) _ _ hn2, List.foldl_cons,
        urgencyStep_skip (strLower t2) _ _ hn3, List.foldl_cons,
        urgencyStep_skip (strLower t2) _ _ hn4, List.foldl_cons, List.foldl_nil]
    unfold urgencyStep
    dsimp only
    rw [hr2]
    rfl
  refine ⟨?_, ?_, ?_, ?_⟩
  · unfold detect_urgency
    rw [if_neg hb1]
    dsimp only
    rw [if_neg (by rw [hbhs1]; simp)]
    exact hmax1
  · unfold detect_urgency
    rw [if_neg hb1]
    dsimp only
    rw [if_neg (by rw [hbhs1]; simp)]
    rw [hmax1]
    rfl
  · unfold detect_urgency
    rw [if_neg hb2]
    dsimp only
    rw [hskips]
    dsimp only
    rw [if_pos (by constructor <;> simp [List.nil_append, hr2]),
        if_neg (by decide), if_pos (by decide)]
    decide
  · unfold detect_urgency
    rw [if_neg hb2]
    dsimp only
    rw [hskips]
    dsimp only
    rw [if_pos (by constructor <;> simp [List.nil_append, hr2]),
        if_neg (by decide), if_pos (by decide)]
    decide

theorem fuseAspect_len_le (d : List (String × AspectData)) (a : LlmAspect) (n : ℕ)
    (hd : ∀ e ∈ d, e.2.mentions.length ≤ n) :
    ∀ e ∈ fuseAspect d a, e.2.mentions.length ≤ n + 1 := by
  intro e he
  unfold fuseAspect at he
  split at he
  · rw [List.mem_map] at he
    obtain ⟨p, hp, rfl⟩ := he
    dsimp only
    split
    · dsimp only
      split
      · dsimp only
        rw [List.length_append]
        have := hd p hp
        simp only [List.length_cons, List.length_nil]
        omega
      · dsimp only
        have := hd p hp
        omega
    · have := hd p hp
      omega
  · rw [List.mem_append] at he
    rcases he with he | he
    · exact le_trans (hd e he) (Nat.le_succ n)
    · rw [List.mem_singleton] at he
      subst he
      simp
  
theorem foldl_fuseAspect_len (as : List LlmAspect) (d : List (String × AspectData)) (n : ℕ)
    (hd : ∀ e ∈ d, e.2.mentions.length ≤ n) :
    ∀ e ∈ as.foldl fuseAspect d, e.2.mentions.length ≤ n + as.length := by
  induction as generalizing d n with
  | nil => simpa using hd
  | cons a as ih =>
    intro e he
    rw [List.foldl_cons] at he
    have := ih (fuseAspect d a) (n + 1) (fuseAspect_len_le d a n hd) e he
    simp only [List.length_cons]
    omega

theorem detect_aspects_mentions_le (vader : String → ℚ) (nfc : String → String)
    (text : String) :
    ∀ e ∈ (detect_aspects vader nfc text).aspect_sentiments,
      e.2.mentions.length ≤ 3 := by
  intro e he
  unfold detect_aspects at he
  split at he
  · simp at he
  · dsimp only at he
    rw [List.mem_map] at he
    obtain ⟨pr, -, rfl⟩ := he
    dsimp only
    exact List.length_take_le 3 pr.2

theorem fuse_aspects_eq (r : Record) (op : Opinion) :
    (fuse_results r (some op)).aspect_sentiments =
      op.aspects.foldl fuseAspect r.aspect_sentiments := by
  obtain ⟨os, oaspects, ourgent, oreason, oreasoning⟩ := op
  unfold fuse_results
  dsimp only
  cases oreason with
  | none => split_ifs <;> rfl
  | some reason =>
      split_ifs
      all_goals try rw [apply_ite Record.aspect_sentiments]
      all_goals simp

theorem enforce_mentions_eq {r r' : Record} (h : enforce_contract r = some r') :
    r'.aspect_sentiments.map (fun p => p.2.mentions) =
      r.aspect_sentiments.map (fun p => p.2.mentions) := by
  obtain ⟨-, -, heq⟩ := enforce_some_eq h
  subst heq
  rw [rule7_aspects, (rule6_keeps (rule4 (rule3 (rule2 (rule1 r))))).2.2.2.2.2,
      List.map_map]
  have : (rule4 (rule3 (rule2 (rule1 r)))).aspect_sentiments = r.aspect_sentiments :=
    (preR_keeps r).2.2.2.2.2
  rw [this]
  exact List.map_congr_left (fun p _ => (enforce_aspect_entry_mentions _ p).1)

/-- C7, amended: after aspect detection every aspect entry carries at most 3
evidence snippets, and contract enforcement never changes mention lists; but
fusion may append one opinion evidence snippet per opinion aspect entry, so
after fusion (and after the enforcement that follows it) an entry carries at
most 3 + k snippets, where k is the number of aspect entries in the opinion
— the bound 3 itself does not survive fusion. -/
theorem mention_bound_amended (vader : String → ℚ) (nfc : String → String)
    (text : String) (r s : Record) (op : Opinion)
    (hdet : ∀ e ∈ r.aspect_sentiments, e.2.mentions.length ≤ 3)
    (hs : enforce_contract (fuse_results r (some op)) = some s) :
    (∀ e ∈ (detect_aspects vader nfc text).aspect_sentiments,
      e.2.mentions.length ≤ 3) ∧
    (∀ e ∈ (fuse_results r (some op)).aspect_sentiments,
      e.2.mentions.length ≤ 3 + op.aspects.length) ∧
    (∀ e ∈ s.aspect_sentiments, e.2.mentions.length ≤ 3 + op.aspects.length) := by
  have hfuse : ∀ e ∈ (fuse_results r (some op)).aspect_sentiments,
      e.2.mentions.length ≤ 3 + op.aspects.length := by
    rw [fuse_aspects_eq]
    exact foldl_fuseAspect_len op.aspects r.aspect_sentiments 3 hdet
  refine ⟨detect_aspects_mentions_le vader nfc text, hfuse, ?_⟩
  intro e he
  have hmem : e.2.mentions ∈ s.aspect_sentiments.map (fun p => p.2.mentions) :=
    List.mem_map_of_mem _ he
  rw [enforce_mentions_eq hs, List.mem_map] at hmem
  obtain ⟨p, hp, hpe⟩ := hmem
  rw [← hpe]
  exact hfuse p hp

section

attribute [local semireducible] Rat.add Rat.mul Rat.inv Rat.sub

theorem guardrails_only_tighten_witness :
    (-1 ≤ (9/10 : ℚ) ∧ (9/10 : ℚ) ≤ 1) ∧
    apply_vader_guardrails (9/10) "not a bad place" 5 ≤ 9/10 :=
  ⟨by decide, guardrails_only_tighten (9/10) "not a bad place" 5 (by decide) (by decide)⟩

theorem urgency_rating_modifier_witness :
    ((FOOD_POISONING_KW.filter
      (fun kw => containsSub (strLower "got food poisoning here") kw)).isEmpty = false ∧
     (RUDE_STAFF_KW.filter
      (fun kw => containsSub (strLower "the staff was rude") kw)).isEmpty = false) ∧
    ((detect_urgency "got food poisoning here" 5).severity_score = 10 ∧
      (detect_urgency "got food poisoning here" 5).urgent = true ∧
      (detect_urgency "the staff was rude" 5).severity_score = 3 ∧
      (detect_urgency "the staff was rude" 5).urgent = false) :=
  ⟨⟨by decide, by decide⟩,
   urgency_rating_modifier "got food poisoning here" "the staff was rude"
     (by decide) (by decide) (by decide) (by decide) (by decide) (by decide)
     (by decide) (by decide)⟩

/-- C7, counterexample: the four-sentence food review yields exactly three
retained mentions for the food aspect, yet after fusion with an opinion
adding a fourth evidence snippet the emitted record's food aspect carries 4
mentions — the claimed bound of 3 fails on the fused and on the enforced
record. -/
theorem mention_bound_counterexample :
    (detect_aspects (fun _ => 0) (fun s => s)
        "Dosa ok. Idli ok. Vada ok. Puri ok.").aspect_sentiments =
      [("food", AspectData.mk "neutral" 0 ["Dosa ok.", "Idli ok.", "Vada ok."])] ∧
    enforce_contract (fuse_results foodRec (some foodOpinion)) = some foodRecOut ∧
    (foodRecOut.aspect_sentiments.map (fun p => p.2.mentions.length)) = [4] := by
  refine ⟨by decide, by decide, by decide⟩

theorem mention_bound_amended_witness :
    (∀ e ∈ foodRec.aspect_sentiments, e.2.mentions.length ≤ 3) ∧
    enforce_contract (fuse_results foodRec (some foodOpinion)) = some foodRecOut ∧
    ((∀ e ∈ (detect_aspects (fun _ => 0) (fun s => s)
        "Dosa ok. Idli ok. Vada ok. Puri ok.").aspect_sentiments,
      e.2.mentions.length ≤ 3) ∧
     (∀ e ∈ (fuse_results foodRec (some foodOpinion)).aspect_sentiments,
      e.2.mentions.length ≤ 3 + foodOpinion.aspects.length) ∧
     (∀ e ∈ foodRecOut.aspect_sentiments,
      e.2.mentions.length ≤ 3 + foodOpinion.aspects.length)) :=
  ⟨by decide, by decide,
   mention_bound_amended (fun _ => 0) (fun s => s)
     "Dosa ok. Idli ok. Vada ok. Puri ok." foodRec foodRecOut foodOpinion
     (by decide) (by decide)⟩

end

end LRA
